import Mathlib

/-!
Verification of the realtime call-session engine of the ringmig backend.

The definitions below are a shallow embedding of the Python source:

* `core/chat/call_models.py`    — `CallSession`, `CallPackage`, `ListenerPayout`,
  `UniversalCallPackage` and their methods;
* `core/chat/call_consumers.py` — `CallConsumer.monitor_call_time`,
  `update_session_status`, `send_call_status`;
* `core/chat/call_views.py`     — `purchase_package`, `initiate_from_package`,
  `accept_call`, `end_call`, `extend_minutes`, `ListenerPayoutViewSet.balance`;
* `core/chat/signals.py`        — the three `post_save` receivers;
* `core/payment/views.py`       — `StripeWebhookView._handle_checkout_completed`.

Embedding conventions:

* Django model rows are Lean structures held in lists inside a `Store`;
  `save()` is modelled as a row replacement followed by running the `post_save`
  receivers with the same `update_fields` information the source passes.
* Clock readings are integers counting hundredths of a minute
  ("centiminutes") since an arbitrary epoch.  The source stores durations as
  `round(elapsed_minutes, 2)` — exactly the centiminute grid — so on this grid
  the source's rounding is the identity and every fractional-minute quantity
  of the source is an exact integer here.  A quantity the source measures in
  minutes (for example `total_minutes_purchased`, an `IntegerField`) is
  converted with the factor 100 at each use, mirroring the source's unit
  conversions.
* Money is an integer number of cents (the source uses 2-decimal `Decimal`).
-/

/-- Session statuses, from `CallSession.STATUS_CHOICES`. -/
inductive SessStatus where
  | connecting
  | active
  | ended
  | timeout
  | failed
deriving DecidableEq, Repr

/-- Call-package (purchase) statuses.  `CallPackage.STATUS_CHOICES` lists the
first six; the source additionally writes the raw strings `'active'`
(in `accept_call`) and `'used'` (in the extension webhook), which Django would
store although they are outside the declared choices, so they are constructors
too. -/
inductive PkgStatus where
  | pending
  | confirmed
  | in_progress
  | completed
  | cancelled
  | refunded
  | activeRaw
  | used
deriving DecidableEq, Repr

/-- Payout statuses, from `ListenerPayout.PAYOUT_STATUS_CHOICES`. -/
inductive PayStatus where
  | earned
  | pendingPayout
  | processing
  | completed
  | failed
  | cancelled
deriving DecidableEq, Repr

/-- One row of the `CallSession` table (`core/chat/call_models.py`), restricted
to the fields the specified operations read or write.  `started_at`/`ended_at`
are clock readings in centiminutes; `minutes_used` is stored in centiminutes
(the source stores minutes rounded to 2 decimals). -/
structure CallSession where
  id : Nat
  talker : Nat
  listener : Nat
  call_package : Option Nat
  initial_package : Option Nat
  status : SessStatus
  total_minutes_purchased : ℤ
  minutes_used : ℤ
  started_at : Option ℤ
  ended_at : Option ℤ
  last_warning_sent : Bool
deriving DecidableEq, Repr

/-- `CallSession.get_remaining_minutes` (call_models.py lines 343-355),
returning the remaining time in centiminutes (the source returns fractional
minutes): full purchased time before acceptance, 0 outside
{connecting, active}, otherwise `max 0 (total - elapsed)`. -/
def get_remaining_minutes (s : CallSession) (now : ℤ) : ℤ :=
  match s.started_at with
  | none => s.total_minutes_purchased * 100
  | some t0 =>
    if s.status = .connecting ∨ s.status = .active then
      max 0 (s.total_minutes_purchased * 100 - (now - t0))
    else 0

/-- `CallSession.add_time` (call_models.py lines 389-392); `minutes` is in
whole minutes as in the source. -/
def add_time (s : CallSession) (minutes : ℤ) : CallSession :=
  { s with total_minutes_purchased := s.total_minutes_purchased + minutes }

/-- `CallSession.should_send_warning` (call_models.py lines 394-400); the
source's `0 < remaining <= 3` minutes is 300 centiminutes. -/
def should_send_warning (s : CallSession) (now : ℤ) : Bool :=
  if s.last_warning_sent ∨ s.status ≠ .active then false
  else
    let remaining := get_remaining_minutes s now
    decide (0 < remaining ∧ remaining ≤ 300)

/-- `CallConsumer.update_session_status` (call_consumers.py lines 468-481):
sets the status; on first activation stamps `started_at`; on `ended`/`timeout`
stamps `ended_at` and, when the call had started, stores
`minutes_used = round(elapsed, 2)` (the identity on the centiminute grid),
with no clamping. -/
def update_session_status (s : CallSession) (st : SessStatus) (now : ℤ) :
    CallSession :=
  let s1 := { s with status := st }
  if st = .active ∧ s1.started_at = none then
    { s1 with started_at := some now }
  else if st = .ended ∨ st = .timeout then
    let s2 := { s1 with ended_at := some now }
    match s2.started_at with
    | some t0 => { s2 with minutes_used := now - t0 }
    | none => s2
  else s1

/-- A session used in several concrete evaluations: active, 10 purchased
minutes, accepted at time 0. -/
def sampleSession : CallSession :=
  { id := 1
    talker := 1
    listener := 2
    call_package := none
    initial_package := none
    status := .active
    total_minutes_purchased := 10
    minutes_used := 0
    started_at := some 0
    ended_at := none
    last_warning_sent := false }

/-- C10: `get_remaining_minutes` returns the full purchased time when
`started_at` is unset, returns 0 when the status is outside
{connecting, active} (in particular for every terminal status), otherwise
returns `max 0 (total - elapsed)`; whenever the stored total is non-negative
the result is non-negative. -/
theorem C10_get_remaining_minutes_spec (s : CallSession) (now : ℤ) :
    (s.started_at = none →
      get_remaining_minutes s now = s.total_minutes_purchased * 100) ∧
    (∀ t0, s.started_at = some t0 →
      ¬(s.status = .connecting ∨ s.status = .active) →
      get_remaining_minutes s now = 0) ∧
    (∀ t0, s.started_at = some t0 →
      (s.status = .connecting ∨ s.status = .active) →
      get_remaining_minutes s now =
        max 0 (s.total_minutes_purchased * 100 - (now - t0))) ∧
    ((0 : ℤ) ≤ s.total_minutes_purchased → 0 ≤ get_remaining_minutes s now) := by
  refine ⟨?_, ?_, ?_, ?_⟩
  · intro h
    simp [get_remaining_minutes, h]
  · intro t0 h hst
    simp [get_remaining_minutes, h, hst]
  · intro t0 h hst
    simp [get_remaining_minutes, h, hst]
  · intro htot
    cases h : s.started_at with
    | none =>
      simp only [get_remaining_minutes, h]
      positivity
    | some t0 =>
      by_cases hst : s.status = .connecting ∨ s.status = .active
      · simp only [get_remaining_minutes, h, hst, if_pos]
        exact le_max_left 0 _
      · simp [get_remaining_minutes, h, hst]

/-- C10 witness: the specification evaluated on `sampleSession` at time 300
centiminutes. -/
theorem C10_get_remaining_minutes_spec_witness :
    (sampleSession.started_at = none →
      get_remaining_minutes sampleSession 300 =
        sampleSession.total_minutes_purchased * 100) ∧
    (∀ t0, sampleSession.started_at = some t0 →
      ¬(sampleSession.status = .connecting ∨ sampleSession.status = .active) →
      get_remaining_minutes sampleSession 300 = 0) ∧
    (∀ t0, sampleSession.started_at = some t0 →
      (sampleSession.status = .connecting ∨ sampleSession.status = .active) →
      get_remaining_minutes sampleSession 300 =
        max 0 (sampleSession.total_minutes_purchased * 100 - (300 - t0))) ∧
    ((0 : ℤ) ≤ sampleSession.total_minutes_purchased →
      0 ≤ get_remaining_minutes sampleSession 300) :=
  C10_get_remaining_minutes_spec sampleSession 300

/-- C3 counterexample: ending `sampleSession` (total 10 minutes = 1000
centiminutes, started at 0) at time 1200 stores `minutes_used = 1200`
centiminutes, not `min elapsed total = 1000`: the source stores the raw
elapsed time with no clamping, so `minutes_used` exceeds
`total_minutes_purchased`. -/
theorem C3_counterexample :
    (update_session_status sampleSession .timeout 1200).minutes_used = 1200 ∧
    ¬((update_session_status sampleSession .timeout 1200).minutes_used =
        min ((1200 : ℤ) - 0)
          (sampleSession.total_minutes_purchased * 100)) := by
  constructor
  · decide
  · decide

/-- C3 amended: when a session with `started_at = t0` transitions to `ended`
or `timeout` at time `now`, `ended_at` is set to `now` and
`minutes_used = now - t0` — the elapsed time (rounded to two decimal minutes
in the source, the identity here), with no clamping to
`total_minutes_purchased`, so `minutes_used` can exceed the purchased total. -/
theorem C3_amended (s : CallSession) (st : SessStatus) (now t0 : ℤ)
    (h0 : s.started_at = some t0) (hst : st = .ended ∨ st = .timeout) :
    (update_session_status s st now).ended_at = some now ∧
    (update_session_status s st now).minutes_used = now - t0 := by
  have hact : ¬(st = .active ∧ s.started_at = none) := by
    rcases hst with h | h <;> subst h <;> simp
  unfold update_session_status
  rw [if_neg hact, if_pos hst]
  simp [h0]

/-- C3 amended witness: ending `sampleSession` at time 500 stores
`ended_at = 500` and `minutes_used = 500 - 0`. -/
theorem C3_amended_witness :
    (update_session_status sampleSession .ended 500).ended_at = some 500 ∧
    (update_session_status sampleSession .ended 500).minutes_used = 500 - 0 :=
  C3_amended sampleSession .ended 500 0 rfl (Or.inl rfl)

/-- User kinds (`CustomUser.user_type`), restricted to the two used by the
call engine. -/
inductive UserType where
  | talker
  | listener
deriving DecidableEq, Repr

/-- One row of the user table, restricted to the fields the call engine
reads. -/
structure User where
  id : Nat
  user_type : UserType
  is_active : Bool
deriving DecidableEq, Repr

/-- Booking statuses (`payment/models.py`), restricted to the only value the
call engine compares against. -/
inductive BookingStatus where
  | in_progress
  | other
deriving DecidableEq, Repr

/-- One row of the legacy `Booking` table; `CallSession.is_listener_available`
reads only the listener and the status. -/
structure Booking where
  id : Nat
  listener : Nat
  status : BookingStatus
deriving DecidableEq, Repr

/-- Python `Decimal.quantize(Decimal('0.01'))` divides with rounding half to
even; `round_half_even_div a b` is that rounding of `a / b` for `b > 0`. -/
def round_half_even_div (a b : ℤ) : ℤ :=
  let q := a / b
  let r := a % b
  if 2 * r < b then q
  else if b < 2 * r then q + 1
  else if q % 2 = 0 then q else q + 1

/-- One row of `UniversalCallPackage` (call_models.py lines 18-76).  `price`
is in cents; `app_fee_percentage` is a whole-number percent (the source allows
two decimals; every percentage in the claims is whole). -/
structure UniversalCallPackage where
  id : Nat
  duration_minutes : ℤ
  price : ℤ
  app_fee_percentage : ℤ
  is_active : Bool
deriving DecidableEq, Repr

/-- `UniversalCallPackage.app_fee` property: `(price * pct / 100).quantize('0.01')`. -/
def UniversalCallPackage.app_fee (p : UniversalCallPackage) : ℤ :=
  round_half_even_div (p.price * p.app_fee_percentage) 100

/-- `UniversalCallPackage.listener_amount` property: `price - app_fee`. -/
def UniversalCallPackage.listener_amount (p : UniversalCallPackage) : ℤ :=
  p.price - p.app_fee

/-- One row of `CallPackage` (call_models.py lines 79-198), restricted to the
fields the specified operations read or write.  Money is in cents. -/
structure CallPackage where
  id : Nat
  talker : Nat
  listener : Nat
  package : Nat
  status : PkgStatus
  total_amount : ℤ
  app_fee : ℤ
  listener_amount : ℤ
  call_session : Option Nat
  is_extension : Bool
deriving DecidableEq, Repr

/-- One row of `ListenerPayout` (call_models.py lines 500-596), restricted to
the fields the specified operations read or write. -/
structure ListenerPayout where
  id : Nat
  listener : Nat
  call_package : Option Nat
  amount : ℤ
  status : PayStatus
  is_extension : Bool
deriving DecidableEq, Repr

/-- Events fanned out to the per-session group (and, for `call_status`, sent
to a single attachment).  Remaining times are centiminutes. -/
inductive GroupEvent where
  | call_accepted
  | time_warning (remaining : ℤ)
  | time_update (remaining : ℤ)
  | minutes_extended (added new_total remaining : ℤ)
  | call_ending
  | call_ended
deriving DecidableEq, Repr

/-- The durable Store: one list per table, id sequences for rows the
operations create, and the list of group events emitted so far. -/
structure Store where
  users : List User
  upackages : List UniversalCallPackage
  packages : List CallPackage
  sessions : List CallSession
  payouts : List ListenerPayout
  bookings : List Booking
  package_seq : Nat
  session_seq : Nat
  payout_seq : Nat
  events : List GroupEvent
deriving DecidableEq, Repr

/-- `CallPackage.objects.get(id=i)`. -/
def findPackage (st : Store) (i : Nat) : Option CallPackage :=
  st.packages.find? (fun p => p.id == i)

/-- `CallSession.objects.get(id=i)`. -/
def findSession (st : Store) (i : Nat) : Option CallSession :=
  st.sessions.find? (fun s => s.id == i)

/-- `UniversalCallPackage.objects.get(id=i)`. -/
def findUPackage (st : Store) (i : Nat) : Option UniversalCallPackage :=
  st.upackages.find? (fun p => p.id == i)

/-- Replace the row with `p.id` in a package table. -/
def putPackage (l : List CallPackage) (p : CallPackage) : List CallPackage :=
  l.map (fun q => if q.id == p.id then p else q)

/-- Replace the row with `s.id` in a session table. -/
def putSession (l : List CallSession) (s : CallSession) : List CallSession :=
  l.map (fun q => if q.id == s.id then s else q)

/-- Append a freshly created `ListenerPayout` row
(`ListenerPayout.objects.create`), drawing its id from the sequence. -/
def createPayout (st : Store) (listener : Nat) (call_package : Option Nat)
    (amount : ℤ) (status : PayStatus) (is_ext : Bool) : Store :=
  { st with
    payouts := st.payouts ++
      [{ id := st.payout_seq
         listener := listener
         call_package := call_package
         amount := amount
         status := status
         is_extension := is_ext }]
    payout_seq := st.payout_seq + 1 }

/-- `update_fields` information passed to a `save()` call: `none` models
`save()` without `update_fields`; `some b` models `save(update_fields=...)`
where `b` says whether `'status'` is among the listed fields. -/
abbrev UpdateFields := Option Bool

/-- Whether the receivers' guard `update_fields and 'status' not in
update_fields` skips the receiver body (only meaningful for updates). -/
def ufSkips (uf : UpdateFields) : Bool :=
  uf == some false

/-- `create_listener_payout_on_payment_confirmation` (chat/signals.py lines
12-56): on a save of a `CallPackage` that is (or became) `confirmed`, create a
`processing` payout for the listener unless one already exists for this
package, copying the package's `is_extension` flag. -/
def create_listener_payout_on_payment_confirmation (st : Store)
    (inst : CallPackage) (created : Bool) (uf : UpdateFields) : Store :=
  if !created && ufSkips uf then st
  else if inst.status = .confirmed then
    if st.payouts.any (fun po => po.call_package == some inst.id) then st
    else if 0 < inst.listener_amount then
      createPayout st inst.listener (some inst.id) inst.listener_amount
        .processing inst.is_extension
    else st
  else st

/-- Flip to `earned` the payouts in `processing` whose `call_package` is
`pid` (a queryset `update`). -/
def flipProcessingToEarned (st : Store) (pid : Nat) : Store :=
  { st with
    payouts := st.payouts.map (fun po =>
      if po.call_package == some pid && po.status == .processing then
        { po with status := .earned }
      else po) }

/-- `mark_payout_earned_on_call_completion` (chat/signals.py lines 59-89): on
an update of a `CallPackage` to `completed`, flip its first `processing`
payout to `earned`.  `ListenerPayout.Meta.ordering` is `['-earned_at']`, so
`.first()` is the most recently created matching row — the last in these
creation-ordered lists. -/
def mark_payout_earned_on_call_completion (st : Store) (inst : CallPackage)
    (created : Bool) (uf : UpdateFields) : Store :=
  if created then st
  else if ufSkips uf then st
  else if inst.status = .completed then
    match (st.payouts.filter (fun po =>
        po.call_package == some inst.id && po.status == .processing)).getLast? with
    | some po =>
      { st with
        payouts := st.payouts.map (fun q =>
          if q.id == po.id then { q with status := .earned } else q) }
    | none => st
  else st

/-- `mark_payout_earned_on_call_session_end` (chat/signals.py lines 92-157):
on an update of a `CallSession` to `timeout` or `ended`, flip to `earned` the
`processing` payouts of its `initial_package`, of its `call_package`, and of
every package whose `call_session` foreign key points at it. -/
def mark_payout_earned_on_call_session_end (st : Store) (inst : CallSession)
    (created : Bool) (uf : UpdateFields) : Store :=
  if created then st
  else if ufSkips uf then st
  else if inst.status = .timeout ∨ inst.status = .ended then
    let st1 :=
      match inst.initial_package with
      | some pid => flipProcessingToEarned st pid
      | none => st
    let st2 :=
      match inst.call_package with
      | some pid => flipProcessingToEarned st1 pid
      | none => st1
    (st2.packages.filter (fun p => p.call_session == some inst.id)).foldl
      (fun acc p => flipProcessingToEarned acc p.id) st2
  else st

/-- `CallPackage.save()`: write the row, then run the two `post_save`
receivers registered for `CallPackage`, in registration order. -/
def savePackage (st : Store) (p : CallPackage) (created : Bool)
    (uf : UpdateFields) : Store :=
  let rows := if created then st.packages ++ [p] else putPackage st.packages p
  let st1 := { st with packages := rows }
  let st2 := create_listener_payout_on_payment_confirmation st1 p created uf
  mark_payout_earned_on_call_completion st2 p created uf

/-- `CallSession.save()`: write the row, then run the `post_save` receiver
registered for `CallSession`. -/
def saveSession (st : Store) (s : CallSession) (created : Bool)
    (uf : UpdateFields) : Store :=
  let rows := if created then st.sessions ++ [s] else putSession st.sessions s
  let st1 := { st with sessions := rows }
  mark_payout_earned_on_call_session_end st1 s created uf

/-- Webhook responses, abstracted to what the claims need. -/
inductive WebhookResp where
  | ok
  | notFound
  | errorResp
deriving DecidableEq, Repr

/-- The `kind=extension` branch of
`StripeWebhookView._handle_checkout_completed` (payment/views.py lines
980-1079).  Inside one transaction it: confirms the package
(`save(update_fields=['stripe_payment_intent_id', 'status', 'updated_at'])`,
which fires the payout-creating receiver), adds the template's
`duration_minutes` to the session (`add_time` saves with
`update_fields=['total_minutes_purchased', 'updated_at']`, so the session
receiver is skipped), creates a second `ListenerPayout` explicitly — without
passing `is_extension`, which therefore defaults to `False` — marks the
package `used`, and emits `minutes_extended`.  There is no idempotency guard
and no check of the session's status. -/
def handle_checkout_completed_extension (st : Store)
    (call_package_id call_session_id : Nat) (now : ℤ) : Store × WebhookResp :=
  match findPackage st call_package_id with
  | none => (st, .notFound)
  | some pkg =>
    match findSession st call_session_id with
    | none => (st, .notFound)
    | some sess =>
      match findUPackage st pkg.package with
      | none => (st, .errorResp)
      | some up =>
        let pkg1 := { pkg with status := PkgStatus.confirmed }
        let st1 := savePackage st pkg1 false (some true)
        let added := up.duration_minutes
        let sess1 := add_time sess added
        let st2 := saveSession st1 sess1 false (some false)
        let st3 := createPayout st2 pkg1.listener (some pkg1.id)
          pkg1.listener_amount .processing false
        let pkg2 := { pkg1 with status := PkgStatus.used }
        let st4 := savePackage st3 pkg2 false (some true)
        let remaining := get_remaining_minutes sess1 now
        let st5 := { st4 with
          events := st4.events ++
            [GroupEvent.minutes_extended added sess1.total_minutes_purchased
              remaining] }
        (st5, .ok)

/-- The initial-purchase branch of
`StripeWebhookView._handle_checkout_completed` (payment/views.py lines
1082-1095): set the package `confirmed` with a full `save()`, which fires the
receivers — the payout-creating one refuses a duplicate row for the same
package, so this branch is idempotent. -/
def handle_checkout_completed_initial (st : Store) (call_package_id : Nat) :
    Store × WebhookResp :=
  match findPackage st call_package_id with
  | none => (st, .errorResp)
  | some pkg =>
    let pkg1 := { pkg with status := PkgStatus.confirmed }
    (savePackage st pkg1 false none, .ok)

/-- `CallSession.is_listener_available` (call_models.py lines 364-387).  The
module-level `from payment.models import Booking, Payment` succeeds in this
codebase, so the function returns from the Booking branch; the
`CallPackage`-in-progress fallback below it is dead code and a package in
`in_progress` does not make a listener busy. -/
def is_listener_available (st : Store) (listener : Nat) : Bool :=
  let has_active_call := st.sessions.any (fun s =>
    s.listener == listener && (s.status == .connecting || s.status == .active))
  let has_active_booking := st.bookings.any (fun b =>
    b.listener == listener && b.status == .in_progress)
  !(has_active_call || has_active_booking)

/-- The alternative-listener hint built by `purchase_package` (call_views.py
lines 183-202): active listeners other than the busy one, filtered by
availability, truncated to 10 in the response body. -/
def available_listeners (st : Store) (exclude : Nat) : List Nat :=
  (((st.users.filter (fun u =>
      u.user_type == .listener && u.is_active && u.id != exclude)).filter
    (fun u => is_listener_available st u.id)).map (fun u => u.id)).take 10

/-- Responses of `purchase_package`, abstracted to what the claims need:
`serializerError` is the 400 built from `serializer.errors` (no listener
list); `busyWithAlternatives` is the 400 of the view's own availability check,
which carries the hint list. -/
inductive PurchaseResp where
  | serializerError
  | busyWithAlternatives (alts : List Nat)
  | okPaid (pkgId : Nat)
  | okRequiresAction (pkgId : Nat)
deriving DecidableEq, Repr

/-- `CallPackageViewSet.purchase_package` (call_views.py lines 143-329)
together with `PurchaseCallPackageSerializer.validate`
(call_serializers.py lines 57-110).  The serializer first checks the listener
and the active template, then for extensions demands an `active` session of
this talker/listener pair and for initial purchases demands
`is_listener_available`; a failure returns `serializer.errors` with no
alternative-listener list.  Only then does the view run its own availability
check (the branch that builds the alternatives list), create the `pending`
package, and — when the payment intent succeeds at once — confirm it with a
full `save()` (firing the payout receiver) and, for extensions, `add_time`.
`paymentSucceeded` stands for the Stripe payment-intent outcome. -/
def purchase_package (st : Store) (talker listener_id package_id : Nat)
    (is_ext : Bool) (paymentSucceeded : Bool) : Store × PurchaseResp :=
  if !(st.users.any (fun u => u.id == listener_id && u.user_type == .listener)) then
    (st, .serializerError)
  else
    match st.upackages.find? (fun p => p.id == package_id && p.is_active) with
    | none => (st, .serializerError)
    | some up =>
      if is_ext then
        match st.sessions.find? (fun s =>
            s.talker == talker && s.listener == listener_id &&
            s.status == .active) with
        | none => (st, .serializerError)
        | some active_session =>
          let pkg : CallPackage :=
            { id := st.package_seq
              talker := talker
              listener := listener_id
              package := up.id
              status := .pending
              total_amount := up.price
              app_fee := up.app_fee
              listener_amount := up.listener_amount
              call_session := some active_session.id
              is_extension := true }
          let st1 := savePackage { st with package_seq := st.package_seq + 1 }
            pkg true none
          if paymentSucceeded then
            let pkg1 := { pkg with status := PkgStatus.confirmed }
            let st2 := savePackage st1 pkg1 false none
            let st3 := saveSession st2
              (add_time active_session up.duration_minutes) false (some false)
            (st3, .okPaid pkg.id)
          else (st1, .okRequiresAction pkg.id)
      else
        if !(is_listener_available st listener_id) then (st, .serializerError)
        else if !(is_listener_available st listener_id) then
          (st, .busyWithAlternatives (available_listeners st listener_id))
        else
          let pkg : CallPackage :=
            { id := st.package_seq
              talker := talker
              listener := listener_id
              package := up.id
              status := .pending
              total_amount := up.price
              app_fee := up.app_fee
              listener_amount := up.listener_amount
              call_session := none
              is_extension := false }
          let st1 := savePackage { st with package_seq := st.package_seq + 1 }
            pkg true none
          if paymentSucceeded then
            let pkg1 := { pkg with status := PkgStatus.confirmed }
            (savePackage st1 pkg1 false none, .okPaid pkg.id)
          else (st1, .okRequiresAction pkg.id)

/-- Responses of `initiate_from_package`, abstracted. -/
inductive InitiateResp where
  | listenerNotFound
  | pkgNotFound
  | busy
  | alreadyExists
  | errorResp
  | okSession (sid : Nat)
deriving DecidableEq, Repr

/-- `initiate_from_package` (call_views.py lines 510-624), purchased-package
branch: find the talker's `confirmed` package for this listener, re-check
availability and the absence of a session for this package, then create the
`connecting` session with `call_package` and `initial_package` pointing at the
purchase and `total_minutes_purchased` taken from the template.  The package's
own `call_session` foreign key is never set here.  The fallback that
auto-purchases from a `UniversalCallPackage` template id is outside the
claims and is not modelled. -/
def initiate_from_package (st : Store) (user listener_id package_id : Nat) :
    Store × InitiateResp :=
  if !(st.users.any (fun u => u.id == listener_id && u.user_type == .listener)) then
    (st, .listenerNotFound)
  else
    match st.packages.find? (fun p =>
        p.id == package_id && p.status == .confirmed &&
        p.talker == user && p.listener == listener_id) with
    | none => (st, .pkgNotFound)
    | some pkg =>
      if !(is_listener_available st listener_id) then (st, .busy)
      else if st.sessions.any (fun s => s.call_package == some pkg.id) then
        (st, .alreadyExists)
      else
        match findUPackage st pkg.package with
        | none => (st, .errorResp)
        | some up =>
          let sess : CallSession :=
            { id := st.session_seq
              talker := pkg.talker
              listener := pkg.listener
              call_package := some pkg.id
              initial_package := some pkg.id
              status := .connecting
              total_minutes_purchased := up.duration_minutes
              minutes_used := 0
              started_at := none
              ended_at := none
              last_warning_sent := false }
          let st1 := saveSession { st with session_seq := st.session_seq + 1 }
            sess true none
          (st1, .okSession sess.id)

/-- Responses of `accept_call`, abstracted. -/
inductive AcceptResp where
  | notFoundResp
  | forbidden
  | badStatus (stat : SessStatus)
  | okAccepted
  | serverError
deriving DecidableEq, Repr

/-- `CallSessionViewSet.accept_call` (call_views.py lines 1221-1321): only the
session's listener may accept and only from `connecting`; on success the
session is saved `active` with `started_at = now`
(`update_fields=['status', 'started_at', 'updated_at']`).  The loop that then
runs over `call_session.packages.filter(status='pending')` calls
`package.save(update_fields=['status', 'activated_at', 'updated_at'])`, and
`activated_at` is not a `CallPackage` field, so Django raises `ValueError` on
the first such package before writing it; the generic handler turns that into
a 500 after the session row is already active.  No package is ever advanced
to `in_progress` here. -/
def accept_call (st : Store) (user call_session_id : Nat) (now : ℤ) :
    Store × AcceptResp :=
  match findSession st call_session_id with
  | none => (st, .notFoundResp)
  | some sess =>
    if sess.listener ≠ user then (st, .forbidden)
    else if sess.status ≠ .connecting then (st, .badStatus sess.status)
    else
      let sess1 := { sess with status := SessStatus.active, started_at := some now }
      let st1 := saveSession st sess1 false (some true)
      if st1.packages.any (fun p =>
          p.call_session == some call_session_id && p.status == .pending) then
        (st1, .serverError)
      else
        ({ st1 with events := st1.events ++ [GroupEvent.call_accepted] },
          .okAccepted)

/-- Responses of `end_call`, abstracted. -/
inductive EndResp where
  | notFoundResp
  | forbidden
  | alreadyOver (stat : SessStatus)
  | okEnded
deriving DecidableEq, Repr

/-- `CallSessionViewSet.end_call` (call_views.py lines 1393-1528): either
participant may end a session whose status is in
`['connecting', 'in_progress', 'active']` (`'in_progress'` is not a session
status and never matches); when the call had started, `minutes_used` is the
raw elapsed time (`round(elapsed, 2)`, the identity on the centiminute grid);
the session is saved `ended` with a full `save()`, so the session receiver
flips its linked `processing` payouts to `earned`; `call_ended` is sent to
the group. -/
def end_call (st : Store) (user call_session_id : Nat) (now : ℤ) :
    Store × EndResp :=
  match findSession st call_session_id with
  | none => (st, .notFoundResp)
  | some sess =>
    if sess.talker ≠ user ∧ sess.listener ≠ user then (st, .forbidden)
    else if ¬(sess.status = .connecting ∨ sess.status = .active) then
      (st, .alreadyOver sess.status)
    else
      let sess1 :=
        match sess.started_at with
        | some t0 =>
          { sess with
            minutes_used := now - t0
            status := SessStatus.ended
            ended_at := some now }
        | none =>
          { sess with status := SessStatus.ended, ended_at := some now }
      let st1 := saveSession st sess1 false none
      ({ st1 with events := st1.events ++ [GroupEvent.call_ended] }, .okEnded)

/-- Responses of `extend_minutes`, abstracted. -/
inductive ExtendResp where
  | notFoundResp
  | forbidden
  | pkgNotFound
  | okCheckout (pkgId : Nat)
deriving DecidableEq, Repr

/-- `CallPackageViewSet.extend_minutes` (call_views.py lines 1067-1193): for a
session in `{connecting, active}` owned by this talker, create a `pending`
extension `CallPackage` — `call_session` is not passed to `create`, so the
foreign key stays NULL — and hand back a checkout link; a second full
`save()` stores the checkout-session id.  Minutes are added later by the
extension webhook. -/
def extend_minutes (st : Store) (user call_session_id package_id : Nat) :
    Store × ExtendResp :=
  match st.sessions.find? (fun s =>
      s.id == call_session_id &&
      (s.status == .connecting || s.status == .active)) with
  | none => (st, .notFoundResp)
  | some sess =>
    if sess.talker ≠ user then (st, .forbidden)
    else
      match st.upackages.find? (fun p => p.id == package_id && p.is_active) with
      | none => (st, .pkgNotFound)
      | some up =>
        let pkg : CallPackage :=
          { id := st.package_seq
            talker := user
            listener := sess.listener
            package := up.id
            status := .pending
            total_amount := up.price
            app_fee := up.app_fee
            listener_amount := up.listener_amount
            call_session := none
            is_extension := true }
        let st1 := savePackage { st with package_seq := st.package_seq + 1 }
          pkg true none
        let st2 := savePackage st1 pkg false none
        (st2, .okCheckout pkg.id)

/-- Sum of the `amount` column over a list of payouts. -/
def sumAmounts (l : List ListenerPayout) : ℤ :=
  (l.map (fun po => po.amount)).sum

/-- `ListenerPayout.get_listener_balance` (call_models.py lines 577-586):
`earned` and `pending` payouts of the listener, with `is_extension=False` —
extensions are excluded from this balance. -/
def get_listener_balance (st : Store) (listener : Nat) : ℤ :=
  sumAmounts (st.payouts.filter (fun po =>
    po.listener == listener &&
    (po.status == .earned || po.status == .pendingPayout) &&
    !po.is_extension))

/-- The body of the `balance` response (call_views.py lines 1897-1945). -/
structure BalanceResp where
  waiting_for_call_to_end : ℤ
  available_balance : ℤ
  pending_withdrawal : ℤ
  total_completed : ℤ
  total_cancelled : ℤ
  total_earned : ℤ
deriving DecidableEq, Repr

/-- `ListenerPayoutViewSet.balance` (call_views.py lines 1897-1945): per-status
sums over all of the listener's payouts, with
`total_earned = waiting + earned + pending + completed` — the `processing`
bucket included, `is_extension` ignored throughout. -/
def balance_endpoint (st : Store) (listener : Nat) : BalanceResp :=
  let qs := st.payouts.filter (fun po => po.listener == listener)
  let waiting := sumAmounts (qs.filter (fun po => po.status == .processing))
  let earned_ready := sumAmounts (qs.filter (fun po => po.status == .earned))
  let pending := sumAmounts (qs.filter (fun po => po.status == .pendingPayout))
  let completed := sumAmounts (qs.filter (fun po => po.status == .completed))
  let cancelled := sumAmounts (qs.filter (fun po => po.status == .cancelled))
  { waiting_for_call_to_end := waiting
    available_balance := earned_ready
    pending_withdrawal := pending
    total_completed := completed
    total_cancelled := cancelled
    total_earned := waiting + earned_ready + pending + completed }

/-- The result of one wake of `CallConsumer.monitor_call_time`: the events it
published, the session row as the tick leaves it, and whether the loop
breaks. -/
structure TickResult where
  events : List GroupEvent
  session : CallSession
  stopped : Bool
deriving DecidableEq, Repr

/-- One wake of `CallConsumer.monitor_call_time` (call_consumers.py lines
186-232): reload the session; announce a `connecting → active` change; while
`started_at` is null do nothing further (no countdown, no events); outside
`active` do nothing further; on `remaining ≤ 0` transition to `timeout`, emit
`call_ending` and break (`end_call_time_expired`; its booking-consumption
touches other tables and is irrelevant to the timer claims); on
`0 < remaining ≤ 3` minutes emit `time_warning` and persist the flag when
`should_send_warning` agrees.  `send_time_update` exists in the source but is
never called from the loop. -/
def monitor_tick (s : CallSession) (last : SessStatus) (now : ℤ) : TickResult :=
  let evs := if last == .connecting && s.status == .active then
    [GroupEvent.call_accepted] else []
  if s.started_at = none then ⟨evs, s, false⟩
  else if s.status ≠ .active then ⟨evs, s, false⟩
  else
    let remaining := get_remaining_minutes s now
    if remaining ≤ 0 then
      ⟨evs ++ [GroupEvent.call_ending], update_session_status s .timeout now, true⟩
    else if remaining ≤ 300 ∧ 0 < remaining then
      if should_send_warning s now then
        ⟨evs ++ [GroupEvent.time_warning remaining],
          { s with last_warning_sent := true }, false⟩
      else ⟨evs, s, false⟩
    else ⟨evs, s, false⟩

/-- External happenings interleaved with timer wakes over a session's
lifetime: a timer wake at a given instant, an extension applied to the row
(`add_time`), or a status transition through
`CallConsumer.update_session_status`. -/
inductive MonStep where
  | tick (now : ℤ)
  | extendBy (minutes : ℤ)
  | setStatus (stat : SessStatus) (now : ℤ)
deriving DecidableEq, Repr

/-- Run the monitor loop over a list of steps, threading the session row and
the `last_status` tracking exactly as the consumer does, and collecting every
published event; a stopping tick breaks the loop. -/
def run_monitor (s : CallSession) (last : SessStatus) :
    List MonStep → List GroupEvent × CallSession
  | [] => ([], s)
  | MonStep.tick now :: rest =>
    let r := monitor_tick s last now
    if r.stopped then (r.events, r.session)
    else
      let next := run_monitor r.session s.status rest
      (r.events ++ next.1, next.2)
  | MonStep.extendBy m :: rest => run_monitor (add_time s m) last rest
  | MonStep.setStatus stat now :: rest =>
    run_monitor (update_session_status s stat now) last rest

/-- Number of `time_warning` events in a list. -/
def warnCount (evs : List GroupEvent) : Nat :=
  evs.countP (fun e =>
    match e with
    | GroupEvent.time_warning _ => true
    | _ => false)

/-- The `call_status` payload of `CallConsumer.send_call_status`
(call_consumers.py lines 388-441), restricted to the fields the claims are
about; `remaining_minutes` is the displayed value (centiminutes). -/
structure StatusPayload where
  status : SessStatus
  remaining_minutes : ℤ
  total_minutes : ℤ
  timer_running : Bool
  accepted : Bool
deriving DecidableEq, Repr

/-- `CallConsumer.send_call_status`: before acceptance (`started_at` null) the
payload shows the full purchased duration and `timer_running=False`; an
`active` session shows the live remaining time with `timer_running=True`; any
other status shows the remaining time with `timer_running=False`. -/
def send_call_status (s : CallSession) (now : ℤ) : StatusPayload :=
  let remaining := get_remaining_minutes s now
  let total := s.total_minutes_purchased
  let call_accepted := s.started_at.isSome
  if !call_accepted then
    { status := s.status
      remaining_minutes := total * 100
      total_minutes := total
      timer_running := false
      accepted := false }
  else if s.status = .active then
    { status := s.status
      remaining_minutes := remaining
      total_minutes := total
      timer_running := true
      accepted := true }
  else
    { status := s.status
      remaining_minutes := remaining
      total_minutes := total
      timer_running := false
      accepted := true }

/-- The 10-minute template of the spec's S1 scenario: price 20.00, fee 10%. -/
def upkg10 : UniversalCallPackage :=
  { id := 1
    duration_minutes := 10
    price := 2000
    app_fee_percentage := 10
    is_active := true }

/-- The initial purchase of the canonical run, awaiting payment. -/
def initialPkg : CallPackage :=
  { id := 1
    talker := 1
    listener := 2
    package := 1
    status := .pending
    total_amount := 2000
    app_fee := 200
    listener_amount := 1800
    call_session := none
    is_extension := false }

/-- The Store at the start of the canonical run: talker 1, listener 2, the
template, and the pending initial purchase. -/
def baseStore : Store :=
  { users :=
      [{ id := 1, user_type := .talker, is_active := true },
       { id := 2, user_type := .listener, is_active := true }]
    upackages := [upkg10]
    packages := [initialPkg]
    sessions := []
    payouts := []
    bookings := []
    package_seq := 2
    session_seq := 1
    payout_seq := 1
    events := [] }

/-- Canonical run, step 1: the initial-purchase confirmation webhook. -/
def runStore1 : Store := (handle_checkout_completed_initial baseStore 1).1

/-- Canonical run, step 2: the talker allocates the session. -/
def runStore2 : Store := (initiate_from_package runStore1 1 2 1).1

/-- Canonical run, step 3: the listener accepts at time 0. -/
def runStore3 : Store := (accept_call runStore2 2 1 0).1

/-- Canonical run, step 4: the talker opens an extension checkout mid-call. -/
def runStore4 : Store := (extend_minutes runStore3 1 1 1).1

/-- Canonical run, step 5: the extension checkout-completed webhook arrives at
7 minutes. -/
def runStore5 : Store := (handle_checkout_completed_extension runStore4 2 1 700).1

/-- Canonical run, step 6: the talker ends the call at 12 minutes. -/
def runFinal : Store := (end_call runStore5 1 1 1200).1

/-- The payout rows referencing package `pid`. -/
def payoutsFor (st : Store) (pid : Nat) : List ListenerPayout :=
  st.payouts.filter (fun po => po.call_package == some pid)

/-- Number of `minutes_extended` events emitted so far. -/
def extEventCount (st : Store) : Nat :=
  st.events.countP (fun e =>
    match e with
    | GroupEvent.minutes_extended _ _ _ => true
    | _ => false)

/-- The canonical run's extension webhook delivered a second time. -/
def twiceStore : Store :=
  (handle_checkout_completed_extension runStore5 2 1 700).1

/-- C1 counterexample: delivering the extension webhook of the canonical run
twice does not produce the single-delivery state: one delivery leaves the
session at 20 minutes, 2 payout rows for the extension purchase (the
receiver's and the handler's) and 1 `minutes_extended` event; the second
delivery raises them to 30 minutes, 3 payout rows and 2 events — the handler
has no idempotency guard. -/
theorem C1_counterexample :
    (handle_checkout_completed_extension runStore4 2 1 700).2 = .ok ∧
    (handle_checkout_completed_extension runStore5 2 1 700).2 = .ok ∧
    (findSession runStore5 1).map (fun s => s.total_minutes_purchased) =
      some 20 ∧
    (payoutsFor runStore5 2).length = 2 ∧
    extEventCount runStore5 = 1 ∧
    (findSession twiceStore 1).map (fun s => s.total_minutes_purchased) =
      some 30 ∧
    (payoutsFor twiceStore 2).length = 3 ∧
    extEventCount twiceStore = 2 ∧
    twiceStore ≠ runStore5 := by
  decide

/-- C2 evaluation at the failing run: after the canonical run the session is
terminal (`ended`) and its initial purchase was confirmed, yet the extension
purchase — whose payment was confirmed and whose minutes were applied —
carries two PayoutRecords, and both are left in `processing`: the webhook
handler creates a duplicate row next to the receiver's, and since
`extend_minutes` never set the package's `call_session` foreign key, the
session-end receiver finds neither. -/
theorem C2_code_bug_evaluation :
    (findSession runFinal 1).map (fun s => s.status) = some .ended ∧
    (findPackage runFinal 1).map (fun p => p.status) = some .confirmed ∧
    (payoutsFor runFinal 1).map (fun po => po.status) = [.earned] ∧
    (findPackage runFinal 2).map (fun p => p.status) = some .used ∧
    (findPackage runFinal 2).map (fun p => p.call_session) = some none ∧
    (payoutsFor runFinal 2).map (fun po => po.status) =
      [.processing, .processing] := by
  decide

/-- A session that already timed out, for the late-extension scenario. -/
def c5Session : CallSession :=
  { id := 1
    talker := 1
    listener := 2
    call_package := some 1
    initial_package := some 1
    status := .timeout
    total_minutes_purchased := 10
    minutes_used := 1000
    started_at := some 0
    ended_at := some 1000
    last_warning_sent := true }

/-- A pending extension purchase for the timed-out session. -/
def c5ExtPkg : CallPackage :=
  { id := 2
    talker := 1
    listener := 2
    package := 1
    status := .pending
    total_amount := 2000
    app_fee := 200
    listener_amount := 1800
    call_session := none
    is_extension := true }

/-- Store with a timed-out session and an unpaid extension for it. -/
def c5Store : Store :=
  { users :=
      [{ id := 1, user_type := .talker, is_active := true },
       { id := 2, user_type := .listener, is_active := true }]
    upackages := [upkg10]
    packages := [c5ExtPkg]
    sessions := [c5Session]
    payouts := []
    bookings := []
    package_seq := 3
    session_seq := 2
    payout_seq := 1
    events := [] }

/-- The late extension webhook applied to the timed-out session. -/
def c5After : Store := (handle_checkout_completed_extension c5Store 2 1 1100).1

/-- C5 counterexample: the extension webhook arriving after the session's
`timeout` transition is not rejected — it reports success, adds the 10
minutes to the terminal session, creates the listener's payout rows in
`processing`, and cancels nothing; no refund exists anywhere on this path. -/
theorem C5_counterexample :
    c5Session.status = .timeout ∧
    (handle_checkout_completed_extension c5Store 2 1 1100).2 = .ok ∧
    (findSession c5After 1).map (fun s => s.total_minutes_purchased) =
      some 20 ∧
    (payoutsFor c5After 2).map (fun po => po.status) =
      [.processing, .processing] ∧
    (∀ po ∈ c5After.payouts, po.status ≠ .cancelled) := by
  decide

/-- C7 counterexample: accepting the canonical run's session succeeds — the
session becomes `active` with `started_at` stamped — but the initial purchase
stays `confirmed`; nothing advances it to `in_progress`. -/
theorem C7_counterexample :
    (accept_call runStore2 2 1 0).2 = .okAccepted ∧
    (findSession (accept_call runStore2 2 1 0).1 1).map
      (fun s => (s.status, s.started_at)) = some (.active, some 0) ∧
    (findPackage (accept_call runStore2 2 1 0).1 1).map (fun p => p.status) =
      some .confirmed ∧
    some PkgStatus.confirmed ≠ some PkgStatus.in_progress := by
  decide

/-- Store with a single earned extension payout, showing the balance
exclusion. -/
def c9Store : Store :=
  { users := [{ id := 2, user_type := .listener, is_active := true }]
    upackages := []
    packages := []
    sessions := []
    payouts :=
      [{ id := 1
         listener := 2
         call_package := some 2
         amount := 1800
         status := .earned
         is_extension := true }]
    bookings := []
    package_seq := 1
    session_seq := 1
    payout_seq := 2
    events := [] }

/-- C9 counterexample: after the canonical run the balance endpoint reports
`total_earned = 5400` — it also sums the `processing` rows — while the sum
over the listener's payouts in {earned, pending, completed} is 1800; and an
`earned` extension payout contributes nothing to
`ListenerPayout.get_listener_balance`, which filters out `is_extension`
rows, so extension credits do not count like base credits. -/
theorem C9_counterexample :
    (balance_endpoint runFinal 2).total_earned = 5400 ∧
    sumAmounts (runFinal.payouts.filter (fun po =>
      po.listener == 2 &&
      (po.status == .earned || po.status == .pendingPayout ||
        po.status == .completed))) = 1800 ∧
    ¬((balance_endpoint runFinal 2).total_earned =
      sumAmounts (runFinal.payouts.filter (fun po =>
        po.listener == 2 &&
        (po.status == .earned || po.status == .pendingPayout ||
          po.status == .completed)))) ∧
    (c9Store.payouts.map (fun po => (po.status, po.is_extension, po.amount))) =
      [(.earned, true, 1800)] ∧
    get_listener_balance c9Store 2 = 0 := by
  decide

/-- A connecting session that nobody accepted yet. -/
def sampleConnecting : CallSession :=
  { id := 1
    talker := 1
    listener := 2
    call_package := some 1
    initial_package := some 1
    status := .connecting
    total_minutes_purchased := 10
    minutes_used := 0
    started_at := none
    ended_at := none
    last_warning_sent := false }

/-- C4: while `started_at` is null the timer wake emits no `time_warning` and
no `time_update`, leaves the session row untouched and keeps looping, and the
status payload sent to an attachment carries `timer_running = false` with the
full purchased duration as `remaining_minutes`. -/
theorem C4_pre_acceptance (s : CallSession) (last : SessStatus) (now : ℤ)
    (h : s.started_at = none) :
    (∀ r, GroupEvent.time_warning r ∉ (monitor_tick s last now).events) ∧
    (∀ r, GroupEvent.time_update r ∉ (monitor_tick s last now).events) ∧
    (monitor_tick s last now).session = s ∧
    (monitor_tick s last now).stopped = false ∧
    (send_call_status s now).timer_running = false ∧
    (send_call_status s now).remaining_minutes =
      s.total_minutes_purchased * 100 ∧
    (send_call_status s now).accepted = false := by
  by_cases hc : (last == SessStatus.connecting && s.status == SessStatus.active) = true
  · refine ⟨?_, ?_, ?_, ?_, ?_, ?_, ?_⟩ <;>
      simp [monitor_tick, send_call_status, h, hc]
  · refine ⟨?_, ?_, ?_, ?_, ?_, ?_, ?_⟩ <;>
      simp [monitor_tick, send_call_status, h, hc]

/-- C4 witness: the pre-acceptance behaviour evaluated on `sampleConnecting`
at time 500. -/
theorem C4_pre_acceptance_witness :
    (∀ r, GroupEvent.time_warning r ∉
      (monitor_tick sampleConnecting .connecting 500).events) ∧
    (∀ r, GroupEvent.time_update r ∉
      (monitor_tick sampleConnecting .connecting 500).events) ∧
    (monitor_tick sampleConnecting .connecting 500).session =
      sampleConnecting ∧
    (monitor_tick sampleConnecting .connecting 500).stopped = false ∧
    (send_call_status sampleConnecting 500).timer_running = false ∧
    (send_call_status sampleConnecting 500).remaining_minutes =
      sampleConnecting.total_minutes_purchased * 100 ∧
    (send_call_status sampleConnecting 500).accepted = false :=
  C4_pre_acceptance sampleConnecting .connecting 500 rfl

/-- A purchase sitting in `in_progress` for listener 2, with no session and no
booking. -/
def c6BusyPkg : CallPackage :=
  { id := 5
    talker := 3
    listener := 2
    package := 1
    status := .in_progress
    total_amount := 2000
    app_fee := 200
    listener_amount := 1800
    call_session := none
    is_extension := false }

/-- Store in which listener 2 has only that `in_progress` purchase. -/
def c6Store : Store :=
  { users :=
      [{ id := 1, user_type := .talker, is_active := true },
       { id := 2, user_type := .listener, is_active := true }]
    upackages := [upkg10]
    packages := [c6BusyPkg]
    sessions := []
    payouts := []
    bookings := []
    package_seq := 6
    session_seq := 1
    payout_seq := 1
    events := [] }

/-- C6 counterexample: listener 2 has a purchase in `in_progress` — "not
free" by the claim's definition — yet the initial purchase request is not
rejected: `is_listener_available` returns from its Booking branch and never
looks at `in_progress` call packages, so the request goes through and a
`pending` Purchase row is persisted. -/
theorem C6_counterexample :
    c6Store.packages.any (fun p =>
      p.listener == 2 && p.status == PkgStatus.in_progress) = true ∧
    is_listener_available c6Store 2 = true ∧
    (purchase_package c6Store 1 2 1 false false).2 = .okRequiresAction 6 ∧
    (purchase_package c6Store 1 2 1 false false).1.packages.any (fun p =>
      p.id == 6 && p.status == PkgStatus.pending) = true := by
  decide

/-- C6 amended: a busy listener (one with a session in {connecting, active}
or a Booking in `in_progress` — an `in_progress` CallPackage does not count)
makes the initial purchase request fail in the serializer: the response is
the serializer-error 400, which carries no alternative-listener list, and the
Store is unchanged, so no `pending` Purchase row is persisted; the view's own
busy branch, the only one that would attach the alternatives list, is
unreachable. -/
theorem C6_amended :
    (∀ (st : Store) (talker listener_id package_id : Nat) (pay : Bool),
      is_listener_available st listener_id = false →
      purchase_package st talker listener_id package_id false pay =
        (st, .serializerError)) ∧
    (∀ (st : Store) (talker listener_id package_id : Nat) (ext pay : Bool)
      (alts : List Nat),
      (purchase_package st talker listener_id package_id ext pay).2 ≠
        .busyWithAlternatives alts) := by
  constructor
  · intro st talker listener_id package_id pay hbusy
    unfold purchase_package
    by_cases hu : (st.users.any (fun u =>
        u.id == listener_id && u.user_type == .listener)) = true
    · simp only [hu, Bool.not_true, Bool.false_eq_true, if_false]
      cases hfind : st.upackages.find? (fun p => p.id == package_id && p.is_active) with
      | none => simp
      | some up => simp [hbusy]
    · simp [hu]
  · intro st talker listener_id package_id ext pay alts
    unfold purchase_package
    by_cases hu : (st.users.any (fun u =>
        u.id == listener_id && u.user_type == .listener)) = true
    · simp only [hu, Bool.not_true, Bool.false_eq_true, if_false]
      cases hfind : st.upackages.find? (fun p => p.id == package_id && p.is_active) with
      | none => simp
      | some up =>
        cases ext with
        | true =>
          cases hs : st.sessions.find? (fun s =>
              s.talker == talker && s.listener == listener_id &&
              s.status == SessStatus.active) with
          | none => simp
          | some a => cases pay <;> simp
        | false =>
          by_cases hav : is_listener_available st listener_id = true
          · simp only [hav, Bool.not_true, Bool.false_eq_true, if_false]
            cases pay <;> simp
          · have hav' : is_listener_available st listener_id = false := by
              revert hav
              cases is_listener_available st listener_id <;> simp
            simp [hav']
    · simp [hu]

/-- A store where listener 2 is busy with an active session. -/
def c6wStore : Store :=
  { users :=
      [{ id := 1, user_type := .talker, is_active := true },
       { id := 2, user_type := .listener, is_active := true }]
    upackages := [upkg10]
    packages := []
    sessions := [sampleSession]
    payouts := []
    bookings := []
    package_seq := 1
    session_seq := 2
    payout_seq := 1
    events := [] }

/-- C6 amended witness: listener 2 of `c6wStore` is in an active session, so
the purchase request returns the plain serializer error and changes nothing,
and no response of the operation is ever the alternatives-list rejection. -/
theorem C6_amended_witness :
    purchase_package c6wStore 1 2 1 false false =
      (c6wStore, .serializerError) ∧
    (purchase_package c6wStore 1 2 1 false false).2 ≠
      .busyWithAlternatives [] :=
  ⟨C6_amended.1 c6wStore 1 2 1 false (by decide),
   C6_amended.2 c6wStore 1 2 1 false false []⟩

/-- Splitting a per-status sum: the four per-status sums the balance endpoint
adds together equal one sum over the union filter. -/
theorem sum_filter_status_split (L : List ListenerPayout) (l : Nat) :
    sumAmounts ((L.filter (fun po => po.listener == l)).filter
        (fun po => po.status == PayStatus.processing)) +
      sumAmounts ((L.filter (fun po => po.listener == l)).filter
        (fun po => po.status == PayStatus.earned)) +
      sumAmounts ((L.filter (fun po => po.listener == l)).filter
        (fun po => po.status == PayStatus.pendingPayout)) +
      sumAmounts ((L.filter (fun po => po.listener == l)).filter
        (fun po => po.status == PayStatus.completed)) =
    sumAmounts (L.filter (fun po =>
      po.listener == l &&
      (po.status == PayStatus.processing || po.status == PayStatus.earned ||
        po.status == PayStatus.pendingPayout ||
        po.status == PayStatus.completed))) := by
  induction L with
  | nil => simp [sumAmounts]
  | cons a t ih =>
    by_cases hl : (a.listener == l) = true
    · cases ha : a.status <;>
        simp [List.filter_cons, hl, ha, sumAmounts] at ih ⊢ <;> omega
    · have hl' : (a.listener == l) = false := by
        revert hl
        cases a.listener == l <;> simp
      simp [List.filter_cons, hl', sumAmounts] at ih ⊢
      exact ih

/-- C9 amended: the balance endpoint's `total_earned` is the sum over the
listener's payouts in {processing, earned, pending, completed} — the
`processing` bucket included and `is_extension` ignored — while the
model-level available balance `get_listener_balance` sums only
{earned, pending} rows with `is_extension = false`, so extension credits are
excluded from it. -/
theorem C9_amended (st : Store) (l : Nat) :
    (balance_endpoint st l).total_earned =
      sumAmounts (st.payouts.filter (fun po =>
        po.listener == l &&
        (po.status == PayStatus.processing ||
          po.status == PayStatus.earned ||
          po.status == PayStatus.pendingPayout ||
          po.status == PayStatus.completed))) ∧
    get_listener_balance st l =
      sumAmounts (st.payouts.filter (fun po =>
        po.listener == l &&
        (po.status == PayStatus.earned ||
          po.status == PayStatus.pendingPayout) &&
        !po.is_extension)) := by
  constructor
  · exact sum_filter_status_split st.payouts l
  · rfl

/-- Replacing the keyed row found by `find?` makes `find?` return the
replacement: the backbone of reasoning about `putPackage`/`putSession`. -/
theorem find?_map_replace {α : Type} (key : α → Nat) (l : List α) (i : Nat)
    (r x : α) (h : l.find? (fun q => key q == i) = some x) (hk : key r = i) :
    (l.map (fun q => if key q == key r then r else q)).find?
      (fun q => key q == i) = some r := by
  induction l with
  | nil => simp at h
  | cons a t ih =>
    simp only [List.map_cons]
    by_cases ha : (key a == i) = true
    · have har : (key a == key r) = true := by rw [hk]; exact ha
      have hri : (key r == i) = true := by simp [hk]
      simp [har, hri]
    · have h' : t.find? (fun q => key q == i) = some x := by
        rw [List.find?_cons_of_neg _ (by simp [ha])] at h
        exact h
      have har : (key a == key r) = false := by
        rw [hk]
        revert ha
        cases key a == i <;> simp
      have := ih h'
      simp only [har, Bool.false_eq_true, if_false]
      rw [List.find?_cons_of_neg _ (by simp [ha])]
      exact this

/-- C7 amended: Accept rejects a caller who is not the session's listener
(403) and a session not in `connecting` (400), leaving the Store unchanged;
on success it saves the session `active` with `started_at = now` and — when
no `pending` package is linked to the session, which no reachable flow
produces — answers 200 while leaving every package and payout row untouched:
in particular the initial purchase is not advanced to `in_progress`. -/
theorem C7_amended (st : Store) (user sid : Nat) (now : ℤ)
    (sess : CallSession) (hfs : findSession st sid = some sess) :
    (sess.listener ≠ user → accept_call st user sid now = (st, .forbidden)) ∧
    (sess.listener = user → sess.status ≠ .connecting →
      accept_call st user sid now = (st, .badStatus sess.status)) ∧
    (sess.listener = user → sess.status = .connecting →
      st.packages.any (fun p =>
        p.call_session == some sid && p.status == .pending) = false →
      (accept_call st user sid now).2 = .okAccepted ∧
      findSession (accept_call st user sid now).1 sid =
        some { sess with status := SessStatus.active, started_at := some now } ∧
      (accept_call st user sid now).1.packages = st.packages ∧
      (accept_call st user sid now).1.payouts = st.payouts) := by
  have hid : sess.id = sid := by
    have := List.find?_some hfs
    exact Nat.eq_of_beq_eq_true (by simpa using this)
  have hsave :
      saveSession st
        { sess with status := SessStatus.active, started_at := some now }
        false (some true) =
      { st with
        sessions := putSession st.sessions
          { sess with status := SessStatus.active, started_at := some now } } := by
    unfold saveSession mark_payout_earned_on_call_session_end ufSkips
    simp
  refine ⟨?_, ?_, ?_⟩
  · intro hne
    unfold accept_call
    rw [hfs]
    dsimp only
    rw [if_pos hne]
  · intro heq hne
    unfold accept_call
    rw [hfs]
    dsimp only
    rw [if_neg (not_not_intro heq), if_pos hne]
  · intro heq hconn hnopending
    unfold accept_call
    rw [hfs]
    dsimp only
    rw [if_neg (not_not_intro heq), if_neg (not_not_intro hconn), hsave]
    have hpk :
        ({ st with
            sessions := putSession st.sessions
              { sess with status := SessStatus.active, started_at := some now } } :
          Store).packages = st.packages := rfl
    rw [if_neg (by rw [hpk, hnopending]; exact Bool.false_ne_true)]
    refine ⟨rfl, ?_, rfl, rfl⟩
    have hfs' : st.sessions.find? (fun q => CallSession.id q == sid) =
        some sess := hfs
    unfold findSession putSession
    exact find?_map_replace CallSession.id st.sessions sid
      { sess with status := SessStatus.active, started_at := some now }
      sess hfs' hid

/-- C7 amended witness: accepting the canonical run's connecting session as
listener 2 at time 0 succeeds, activates the session, and leaves every
package and payout row unchanged. -/
theorem C7_amended_witness :
    (accept_call runStore2 2 1 0).2 = .okAccepted ∧
    findSession (accept_call runStore2 2 1 0).1 1 =
      some { sampleConnecting with
        status := SessStatus.active, started_at := some 0 } ∧
    (accept_call runStore2 2 1 0).1.packages = runStore2.packages ∧
    (accept_call runStore2 2 1 0).1.payouts = runStore2.payouts :=
  (C7_amended runStore2 2 1 0 sampleConnecting (by decide)).2.2 rfl rfl
    (by decide)

/-- `update_session_status` never touches the warning flag. -/
theorem update_session_status_flag (s : CallSession) (st : SessStatus)
    (now : ℤ) :
    (update_session_status s st now).last_warning_sent =
      s.last_warning_sent := by
  unfold update_session_status
  by_cases h1 : st = .active ∧ ({ s with status := st } : CallSession).started_at = none
  · rw [if_pos h1]
  · rw [if_neg h1]
    by_cases h2 : st = .ended ∨ st = .timeout
    · rw [if_pos h2]
      dsimp only
      cases s.started_at <;> rfl
    · rw [if_neg h2]

/-- `warnCount` distributes over append. -/
theorem warnCount_append (a b : List GroupEvent) :
    warnCount (a ++ b) = warnCount a + warnCount b :=
  List.countP_append _ _ _

/-- A single timer wake either emits no warning and keeps the warning flag,
or emits exactly one warning and leaves the flag set. -/
theorem monitor_tick_warn_cases (s : CallSession) (last : SessStatus)
    (now : ℤ) :
    (warnCount (monitor_tick s last now).events = 0 ∧
      (monitor_tick s last now).session.last_warning_sent =
        s.last_warning_sent) ∨
    (warnCount (monitor_tick s last now).events = 1 ∧
      (monitor_tick s last now).session.last_warning_sent = true) := by
  have hevs : warnCount (if last == SessStatus.connecting &&
      s.status == SessStatus.active then [GroupEvent.call_accepted] else []) = 0 := by
    by_cases hc : (last == SessStatus.connecting &&
        s.status == SessStatus.active) = true
    · simp [hc, warnCount]
    · simp only [Bool.not_eq_true] at hc
      simp [hc, warnCount]
  unfold monitor_tick
  by_cases h1 : s.started_at = none
  · left
    rw [if_pos h1]
    exact ⟨hevs, rfl⟩
  · rw [if_neg h1]
    by_cases h2 : s.status ≠ .active
    · left
      rw [if_pos h2]
      exact ⟨hevs, rfl⟩
    · rw [if_neg h2]
      by_cases h3 : get_remaining_minutes s now ≤ 0
      · left
        rw [if_pos h3]
        refine ⟨?_, update_session_status_flag s .timeout now⟩
        rw [warnCount_append, hevs]
        rfl
      · rw [if_neg h3]
        by_cases h4 : get_remaining_minutes s now ≤ 300 ∧
            0 < get_remaining_minutes s now
        · rw [if_pos h4]
          by_cases h5 : should_send_warning s now = true
          · right
            rw [if_pos h5]
            refine ⟨?_, rfl⟩
            rw [warnCount_append, hevs]
            rfl
          · left
            rw [if_neg h5]
            exact ⟨hevs, rfl⟩
        · left
          rw [if_neg h4]
          exact ⟨hevs, rfl⟩

/-- With the warning flag already set, a timer wake emits no warning and
keeps the flag set. -/
theorem monitor_tick_flag_true (s : CallSession) (last : SessStatus) (now : ℤ)
    (h : s.last_warning_sent = true) :
    warnCount (monitor_tick s last now).events = 0 ∧
      (monitor_tick s last now).session.last_warning_sent = true := by
  rcases monitor_tick_warn_cases s last now with ⟨h0, hf⟩ | ⟨h1, hf⟩
  · exact ⟨h0, by rw [hf, h]⟩
  · refine ⟨?_, hf⟩
    exfalso
    have hw : should_send_warning s now = false := by
      simp [should_send_warning, h]
    revert h1
    unfold monitor_tick
    by_cases g1 : s.started_at = none
    · simp only [g1, if_true]
      intro hc
      rw [(by
        by_cases hb : (last == SessStatus.connecting &&
            s.status == SessStatus.active) = true
        · simp [hb, warnCount]
        · simp only [Bool.not_eq_true] at hb
          simp [hb, warnCount] :
        warnCount (if last == SessStatus.connecting &&
          s.status == SessStatus.active then
            [GroupEvent.call_accepted] else []) = 0)] at hc
      exact absurd hc (by omega)
    · rw [if_neg g1]
      by_cases g2 : s.status ≠ .active
      · rw [if_pos g2]
        intro hc
        have hevs : warnCount (if last == SessStatus.connecting &&
            s.status == SessStatus.active then
              [GroupEvent.call_accepted] else []) = 0 := by
          by_cases hb : (last == SessStatus.connecting &&
              s.status == SessStatus.active) = true
          · simp [hb, warnCount]
          · simp only [Bool.not_eq_true] at hb
            simp [hb, warnCount]
        rw [hevs] at hc
        exact absurd hc (by omega)
      · rw [if_neg g2]
        have hevs : warnCount (if last == SessStatus.connecting &&
            s.status == SessStatus.active then
              [GroupEvent.call_accepted] else []) = 0 := by
          by_cases hb : (last == SessStatus.connecting &&
              s.status == SessStatus.active) = true
          · simp [hb, warnCount]
          · simp only [Bool.not_eq_true] at hb
            simp [hb, warnCount]
        by_cases g3 : get_remaining_minutes s now ≤ 0
        · rw [if_pos g3]
          intro hc
          rw [warnCount_append, hevs] at hc
          exact absurd hc (by simp [warnCount])
        · rw [if_neg g3]
          by_cases g4 : get_remaining_minutes s now ≤ 300 ∧
              0 < get_remaining_minutes s now
          · rw [if_pos g4, hw]
            simp only [Bool.false_eq_true, if_false]
            intro hc
            rw [hevs] at hc
            exact absurd hc (by omega)
          · rw [if_neg g4]
            intro hc
            rw [hevs] at hc
            exact absurd hc (by omega)

/-- Once the persisted warning flag is set, no later step of the monitor loop
emits a warning. -/
theorem run_monitor_flag_true (steps : List MonStep) :
    ∀ (s : CallSession) (last : SessStatus), s.last_warning_sent = true →
      warnCount (run_monitor s last steps).1 = 0 := by
  induction steps with
  | nil =>
    intro s last h
    rfl
  | cons head tail ih =>
    intro s last h
    cases head with
    | tick now =>
      have hc := monitor_tick_flag_true s last now h
      by_cases hstop : (monitor_tick s last now).stopped = true
      · simp only [run_monitor, hstop, if_true]
        exact hc.1
      · simp only [run_monitor, hstop, Bool.false_eq_true, if_false]
        rw [warnCount_append, hc.1, ih _ _ hc.2]
    | extendBy m =>
      exact ih (add_time s m) last h
    | setStatus stt now =>
      refine Eq.trans ?_ (ih (update_session_status s stt now) last ?_)
      · rfl
      · rw [update_session_status_flag, h]

/-- The monitor loop emits at most one warning over any run, whatever the
starting flag. -/
theorem run_monitor_warn_le_one (steps : List MonStep) :
    ∀ (s : CallSession) (last : SessStatus),
      warnCount (run_monitor s last steps).1 ≤ 1 := by
  induction steps with
  | nil =>
    intro s last
    exact Nat.zero_le 1
  | cons head tail ih =>
    intro s last
    cases head with
    | tick now =>
      by_cases hstop : (monitor_tick s last now).stopped = true
      · simp only [run_monitor, hstop, if_true]
        rcases monitor_tick_warn_cases s last now with ⟨h0, _⟩ | ⟨h1, _⟩
        · omega
        · omega
      · simp only [run_monitor, hstop, Bool.false_eq_true, if_false]
        rw [warnCount_append]
        rcases monitor_tick_warn_cases s last now with ⟨h0, _⟩ | ⟨h1, hf⟩
        · have := ih (monitor_tick s last now).session s.status
          omega
        · have := run_monitor_flag_true tail (monitor_tick s last now).session
            s.status hf
          omega
    | extendBy m =>
      exact ih (add_time s m) last
    | setStatus stt now =>
      exact ih (update_session_status s stt now) last

/-- C8: over any run of the monitor loop — ticks interleaved with extensions
and status transitions — at most one `time_warning` is emitted; and a single
wake emits `time_warning r` only when the session is `active`, the persisted
warning flag is still clear, and `r`, the remaining time, lies in (0, 300]
centiminutes, i.e. (0, 3] minutes.  The proof of the run bound rests on the
flag: the wake that emits sets it, and no wake emits while it is set. -/
theorem C8_time_warning_at_most_once :
    (∀ (s : CallSession) (last : SessStatus) (steps : List MonStep),
      warnCount (run_monitor s last steps).1 ≤ 1) ∧
    (∀ (s : CallSession) (last : SessStatus) (now r : ℤ),
      GroupEvent.time_warning r ∈ (monitor_tick s last now).events →
      s.status = .active ∧ s.last_warning_sent = false ∧
      r = get_remaining_minutes s now ∧ 0 < r ∧ r ≤ 300) := by
  constructor
  · intro s last steps
    exact run_monitor_warn_le_one steps s last
  · intro s last now r hmem
    have hevs : GroupEvent.time_warning r ∉
        (if last == SessStatus.connecting && s.status == SessStatus.active
          then [GroupEvent.call_accepted] else []) := by
      by_cases hb : (last == SessStatus.connecting &&
          s.status == SessStatus.active) = true
      · simp [hb]
      · simp only [Bool.not_eq_true] at hb
        simp [hb]
    revert hmem
    unfold monitor_tick
    by_cases h1 : s.started_at = none
    · rw [if_pos h1]
      intro hmem
      exact absurd hmem hevs
    · rw [if_neg h1]
      by_cases h2 : s.status ≠ .active
      · rw [if_pos h2]
        intro hmem
        exact absurd hmem hevs
      · rw [if_neg h2]
        by_cases h3 : get_remaining_minutes s now ≤ 0
        · rw [if_pos h3]
          intro hmem
          rcases List.mem_append.mp hmem with h | h
          · exact absurd h hevs
          · simp at h
        · rw [if_neg h3]
          by_cases h4 : get_remaining_minutes s now ≤ 300 ∧
              0 < get_remaining_minutes s now
          · rw [if_pos h4]
            by_cases h5 : should_send_warning s now = true
            · rw [if_pos h5]
              intro hmem
              rcases List.mem_append.mp hmem with h | h
              · exact absurd h hevs
              · have hr : r = get_remaining_minutes s now := by
                  simpa using h
                have hst : s.status = .active := by
                  by_contra hne
                  have : should_send_warning s now = false := by
                    simp [should_send_warning, hne]
                  rw [this] at h5
                  exact absurd h5 (by simp)
                have hfl : s.last_warning_sent = false := by
                  by_contra hne
                  have hne' : s.last_warning_sent = true := by
                    revert hne
                    cases s.last_warning_sent <;> simp
                  have : should_send_warning s now = false := by
                    simp [should_send_warning, hne']
                  rw [this] at h5
                  exact absurd h5 (by simp)
                exact ⟨hst, hfl, hr, by omega, by omega⟩
            · rw [if_neg h5]
              intro hmem
              exact absurd hmem hevs
          · rw [if_neg h4]
            intro hmem
            exact absurd hmem hevs

/-- C8 witness: a run consisting of one wake of `sampleSession` at time 800
(remaining 200 centiminutes) warns at most once, and that wake's warning
instantiates the emission conditions. -/
theorem C8_time_warning_at_most_once_witness :
    warnCount (run_monitor sampleSession .active [MonStep.tick 800]).1 ≤ 1 ∧
    (sampleSession.status = .active ∧
      sampleSession.last_warning_sent = false ∧
      (200 : ℤ) = get_remaining_minutes sampleSession 800 ∧
      (0 : ℤ) < 200 ∧ (200 : ℤ) ≤ 300) :=
  ⟨C8_time_warning_at_most_once.1 sampleSession .active [MonStep.tick 800],
   C8_time_warning_at_most_once.2 sampleSession .active 800 200 (by decide)⟩

/-- The Store produced by one successful pass of the extension webhook,
written out explicitly: both package saves, the minute addition, the
receiver-created payout (when the package had none and a positive amount)
followed by the handler-created one, and the `minutes_extended` event. -/
def extension_webhook_result (st : Store) (pkg : CallPackage)
    (sess : CallSession) (up : UniversalCallPackage) (now : ℤ) : Store :=
  let sigPart : List ListenerPayout :=
    if st.payouts.any (fun po => po.call_package == some pkg.id) then []
    else if 0 < pkg.listener_amount then
      [{ id := st.payout_seq
         listener := pkg.listener
         call_package := some pkg.id
         amount := pkg.listener_amount
         status := .processing
         is_extension := pkg.is_extension }]
    else []
  let sess1 := add_time sess up.duration_minutes
  { st with
    packages := putPackage (putPackage st.packages
      { pkg with status := PkgStatus.confirmed })
      { pkg with status := PkgStatus.used }
    sessions := putSession st.sessions sess1
    payouts := st.payouts ++ sigPart ++
      [{ id := st.payout_seq + sigPart.length
         listener := pkg.listener
         call_package := some pkg.id
         amount := pkg.listener_amount
         status := .processing
         is_extension := false }]
    payout_seq := st.payout_seq + sigPart.length + 1
    events := st.events ++
      [GroupEvent.minutes_extended up.duration_minutes
        sess1.total_minutes_purchased (get_remaining_minutes sess1 now)] }

/-- One pass of the extension webhook, characterised: when the package, the
session and the template exist, the handler succeeds and produces exactly
`extension_webhook_result`. -/
theorem extension_webhook_step (st : Store) (pid sid : Nat) (now : ℤ)
    (pkg : CallPackage) (sess : CallSession) (up : UniversalCallPackage)
    (hfp : findPackage st pid = some pkg)
    (hfs : findSession st sid = some sess)
    (hup : findUPackage st pkg.package = some up) :
    handle_checkout_completed_extension st pid sid now =
      (extension_webhook_result st pkg sess up now, .ok) := by
  unfold handle_checkout_completed_extension
  rw [hfp, hfs]
  dsimp only
  rw [hup]
  dsimp only
  unfold extension_webhook_result savePackage saveSession
    create_listener_payout_on_payment_confirmation
    mark_payout_earned_on_call_completion
    mark_payout_earned_on_call_session_end createPayout ufSkips
  by_cases hhas : st.payouts.any (fun po => po.call_package == some pkg.id) = true
  · simp [hhas]
  · rw [Bool.not_eq_true] at hhas
    by_cases hamt : 0 < pkg.listener_amount
    · simp [hhas, hamt]
    · simp [hhas, hamt]

/-- Adding time twice is adding the sum. -/
theorem add_time_add (s : CallSession) (a b : ℤ) :
    add_time (add_time s a) b = add_time s (a + b) := by
  unfold add_time
  rw [Int.add_assoc]

/-- Projection facts about the store after one extension-webhook pass. -/
theorem extension_webhook_result_facts (st : Store) (pkg : CallPackage)
    (sess : CallSession) (up : UniversalCallPackage) (now : ℤ) (pid sid : Nat)
    (hid : pkg.id = pid) (hsid : sess.id = sid)
    (hfp : findPackage st pid = some pkg)
    (hfs : findSession st sid = some sess) :
    findPackage (extension_webhook_result st pkg sess up now) pid =
      some { pkg with status := PkgStatus.used } ∧
    findSession (extension_webhook_result st pkg sess up now) sid =
      some (add_time sess up.duration_minutes) ∧
    (extension_webhook_result st pkg sess up now).upackages = st.upackages ∧
    (extension_webhook_result st pkg sess up now).payouts.any
      (fun po => po.call_package == some pid) = true ∧
    (payoutsFor (extension_webhook_result st pkg sess up now) pid).length =
      (payoutsFor st pid).length +
        ((if st.payouts.any (fun po => po.call_package == some pkg.id) = true
            then 0
          else if 0 < pkg.listener_amount then 1 else 0) + 1) ∧
    extEventCount (extension_webhook_result st pkg sess up now) =
      extEventCount st + 1 := by
  subst hid
  subst hsid
  have hfp' : st.packages.find? (fun q => CallPackage.id q == pkg.id) =
      some pkg := hfp
  have hfs' : st.sessions.find? (fun q => CallSession.id q == sess.id) =
      some sess := hfs
  have h1 : (putPackage st.packages
      { pkg with status := PkgStatus.confirmed }).find?
        (fun q => CallPackage.id q == pkg.id) =
      some { pkg with status := PkgStatus.confirmed } :=
    find?_map_replace CallPackage.id st.packages pkg.id
      { pkg with status := PkgStatus.confirmed } pkg hfp' rfl
  have h2 : (putPackage (putPackage st.packages
      { pkg with status := PkgStatus.confirmed })
        { pkg with status := PkgStatus.used }).find?
        (fun q => CallPackage.id q == pkg.id) =
      some { pkg with status := PkgStatus.used } :=
    find?_map_replace CallPackage.id
      (putPackage st.packages { pkg with status := PkgStatus.confirmed })
      pkg.id { pkg with status := PkgStatus.used }
      { pkg with status := PkgStatus.confirmed } h1 rfl
  have h3 : (putSession st.sessions (add_time sess up.duration_minutes)).find?
      (fun q => CallSession.id q == sess.id) =
      some (add_time sess up.duration_minutes) :=
    find?_map_replace CallSession.id st.sessions sess.id
      (add_time sess up.duration_minutes) sess hfs' rfl
  refine ⟨h2, h3, rfl, ?_, ?_, ?_⟩
  · unfold extension_webhook_result
    simp
  · unfold extension_webhook_result payoutsFor
    by_cases hhas : st.payouts.any (fun po => po.call_package == some pkg.id) = true
    · simp [hhas, List.filter_append]
    · rw [Bool.not_eq_true] at hhas
      by_cases hamt : 0 < pkg.listener_amount
      · simp [hhas, hamt, List.filter_append]
      · simp [hhas, hamt, List.filter_append]
  · unfold extension_webhook_result extEventCount
    simp [List.countP_append]

/-- `N` deliveries of the same extension checkout-completed webhook. -/
def deliver_ext (pid sid : Nat) (now : ℤ) : Nat → Store → Store
  | 0, st => st
  | n + 1, st =>
    deliver_ext pid sid now n
      (handle_checkout_completed_extension st pid sid now).1

/-- Once some payout row already references the extension package, every
further delivery adds the template duration once more, one more payout row,
and one more `minutes_extended` event. -/
theorem deliver_ext_aux (pid sid : Nat) (now : ℤ) (n : Nat) :
    ∀ (st : Store) (pkg : CallPackage) (sess : CallSession)
      (up : UniversalCallPackage),
      findPackage st pid = some pkg →
      findSession st sid = some sess →
      findUPackage st pkg.package = some up →
      st.payouts.any (fun po => po.call_package == some pid) = true →
      findSession (deliver_ext pid sid now n st) sid =
        some (add_time sess ((n : ℤ) * up.duration_minutes)) ∧
      (payoutsFor (deliver_ext pid sid now n st) pid).length =
        (payoutsFor st pid).length + n ∧
      extEventCount (deliver_ext pid sid now n st) =
        extEventCount st + n := by
  induction n with
  | zero =>
    intro st pkg sess up hfp hfs hup hany
    have hsz : add_time sess (((0 : ℕ) : ℤ) * up.duration_minutes) = sess := by
      simp [add_time]
    refine ⟨?_, rfl, rfl⟩
    rw [hsz]
    exact hfs
  | succ n ih =>
    intro st pkg sess up hfp hfs hup hany
    have hid : pkg.id = pid :=
      Nat.eq_of_beq_eq_true (by simpa using List.find?_some hfp)
    have hsid : sess.id = sid :=
      Nat.eq_of_beq_eq_true (by simpa using List.find?_some hfs)
    have hstep := extension_webhook_step st pid sid now pkg sess up hfp hfs hup
    have hfacts := extension_webhook_result_facts st pkg sess up now pid sid
      hid hsid hfp hfs
    have hdef : deliver_ext pid sid now (n + 1) st =
        deliver_ext pid sid now n (extension_webhook_result st pkg sess up now) := by
      have h0 : deliver_ext pid sid now (n + 1) st =
          deliver_ext pid sid now n
            (handle_checkout_completed_extension st pid sid now).1 := rfl
      rw [h0, hstep]
    have hupR : findUPackage (extension_webhook_result st pkg sess up now)
        ({ pkg with status := PkgStatus.used } : CallPackage).package = some up := by
      unfold findUPackage
      rw [hfacts.2.2.1]
      exact hup
    have hihres := ih (extension_webhook_result st pkg sess up now)
      { pkg with status := PkgStatus.used } (add_time sess up.duration_minutes)
      up hfacts.1 hfacts.2.1 hupR hfacts.2.2.2.1
    have hhasid : st.payouts.any (fun po => po.call_package == some pkg.id) =
        true := by
      rw [hid]
      exact hany
    have hlenR : (payoutsFor (extension_webhook_result st pkg sess up now)
        pid).length = (payoutsFor st pid).length + 1 := by
      rw [hfacts.2.2.2.2.1, hhasid]
      simp
    have harith : add_time (add_time sess up.duration_minutes)
        ((n : ℤ) * up.duration_minutes) =
        add_time sess (((n + 1 : ℕ) : ℤ) * up.duration_minutes) := by
      rw [add_time_add]
      congr 1
      push_cast
      ring
    refine ⟨?_, ?_, ?_⟩
    · rw [hdef]
      rw [hihres.1, harith]
    · rw [hdef, hihres.2.1, hlenR]
      omega
    · rw [hdef, hihres.2.2, hfacts.2.2.2.2.2]
      omega

/-- C1 amended: delivering the same extension checkout-completed webhook
N ≥ 1 times to a package that has no payout row yet adds the template's
duration to the session N times, creates N + 1 PayoutRecords for the
extension purchase — the confirmation receiver's row on the first delivery
plus one handler row per delivery — and emits N `minutes_extended` events:
the handler is not idempotent, and each replay changes the Store again. -/
theorem C1_amended (st : Store) (pid sid : Nat) (now : ℤ) (N : Nat)
    (pkg : CallPackage) (sess : CallSession) (up : UniversalCallPackage)
    (hfp : findPackage st pid = some pkg)
    (hfs : findSession st sid = some sess)
    (hup : findUPackage st pkg.package = some up)
    (hnopay : st.payouts.any (fun po => po.call_package == some pid) = false)
    (hamt : 0 < pkg.listener_amount)
    (hN : 1 ≤ N) :
    findSession (deliver_ext pid sid now N st) sid =
      some (add_time sess ((N : ℤ) * up.duration_minutes)) ∧
    (payoutsFor (deliver_ext pid sid now N st) pid).length =
      (payoutsFor st pid).length + N + 1 ∧
    extEventCount (deliver_ext pid sid now N st) =
      extEventCount st + N := by
  cases N with
  | zero => omega
  | succ M =>
    have hid : pkg.id = pid :=
      Nat.eq_of_beq_eq_true (by simpa using List.find?_some hfp)
    have hsid : sess.id = sid :=
      Nat.eq_of_beq_eq_true (by simpa using List.find?_some hfs)
    have hstep := extension_webhook_step st pid sid now pkg sess up hfp hfs hup
    have hfacts := extension_webhook_result_facts st pkg sess up now pid sid
      hid hsid hfp hfs
    have hdef : deliver_ext pid sid now (M + 1) st =
        deliver_ext pid sid now M (extension_webhook_result st pkg sess up now) := by
      have h0 : deliver_ext pid sid now (M + 1) st =
          deliver_ext pid sid now M
            (handle_checkout_completed_extension st pid sid now).1 := rfl
      rw [h0, hstep]
    have hupR : findUPackage (extension_webhook_result st pkg sess up now)
        ({ pkg with status := PkgStatus.used } : CallPackage).package = some up := by
      unfold findUPackage
      rw [hfacts.2.2.1]
      exact hup
    have hihres := deliver_ext_aux pid sid now M
      (extension_webhook_result st pkg sess up now)
      { pkg with status := PkgStatus.used } (add_time sess up.duration_minutes)
      up hfacts.1 hfacts.2.1 hupR hfacts.2.2.2.1
    have hhasid : st.payouts.any (fun po => po.call_package == some pkg.id) =
        false := by
      rw [hid]
      exact hnopay
    have hlenR : (payoutsFor (extension_webhook_result st pkg sess up now)
        pid).length = (payoutsFor st pid).length + 2 := by
      rw [hfacts.2.2.2.2.1, hhasid]
      simp [hamt]
    have harith : add_time (add_time sess up.duration_minutes)
        ((M : ℤ) * up.duration_minutes) =
        add_time sess (((M + 1 : ℕ) : ℤ) * up.duration_minutes) := by
      rw [add_time_add]
      congr 1
      push_cast
      ring
    refine ⟨?_, ?_, ?_⟩
    · rw [hdef, hihres.1, harith]
    · rw [hdef, hihres.2.1, hlenR]
      omega
    · rw [hdef, hihres.2.2, hfacts.2.2.2.2.2]
      omega

/-- The extension purchase row of the canonical run, before payment. -/
def runExtPkg : CallPackage :=
  { id := 2
    talker := 1
    listener := 2
    package := 1
    status := .pending
    total_amount := 2000
    app_fee := 200
    listener_amount := 1800
    call_session := none
    is_extension := true }

/-- The canonical run's session while active. -/
def runActiveSession : CallSession :=
  { id := 1
    talker := 1
    listener := 2
    call_package := some 1
    initial_package := some 1
    status := .active
    total_minutes_purchased := 10
    minutes_used := 0
    started_at := some 0
    ended_at := none
    last_warning_sent := false }

/-- C1 amended witness: two deliveries of the canonical run's extension
webhook leave the session at 10 + 2·10 minutes, 0 + 2 + 1 payout rows for the
extension purchase, and 2 `minutes_extended` events. -/
theorem C1_amended_witness :
    findSession (deliver_ext 2 1 700 2 runStore4) 1 =
      some (add_time runActiveSession (((2 : ℕ) : ℤ) * 10)) ∧
    (payoutsFor (deliver_ext 2 1 700 2 runStore4) 2).length =
      (payoutsFor runStore4 2).length + 2 + 1 ∧
    extEventCount (deliver_ext 2 1 700 2 runStore4) =
      extEventCount runStore4 + 2 :=
  C1_amended runStore4 2 1 700 2 runExtPkg runActiveSession upkg10
    (by decide) (by decide) (by decide) (by decide) (by decide) (by decide)

/-- C5 amended: an extension checkout-completed webhook for a session already
in a terminal status is not rejected: the handler reports success, still adds
the template's minutes to the terminal session, creates the listener's payout
rows in `processing`, and cancels nothing — every payout row after the call
either existed before or is in `processing`, and no refund is issued on this
path. -/
theorem C5_amended (st : Store) (pid sid : Nat) (now : ℤ)
    (pkg : CallPackage) (sess : CallSession) (up : UniversalCallPackage)
    (hfp : findPackage st pid = some pkg)
    (hfs : findSession st sid = some sess)
    (hup : findUPackage st pkg.package = some up)
    (hterm : sess.status = .ended ∨ sess.status = .timeout) :
    (handle_checkout_completed_extension st pid sid now).2 = .ok ∧
    findSession (handle_checkout_completed_extension st pid sid now).1 sid =
      some (add_time sess up.duration_minutes) ∧
    (add_time sess up.duration_minutes).status = sess.status ∧
    (add_time sess up.duration_minutes).total_minutes_purchased =
      sess.total_minutes_purchased + up.duration_minutes ∧
    (∀ po ∈ (handle_checkout_completed_extension st pid sid now).1.payouts,
      po ∈ st.payouts ∨ po.status = .processing) ∧
    (handle_checkout_completed_extension st pid sid now).1.payouts.filter
        (fun po => po.status == PayStatus.cancelled) =
      st.payouts.filter (fun po => po.status == PayStatus.cancelled) := by
  have hid : pkg.id = pid :=
    Nat.eq_of_beq_eq_true (by simpa using List.find?_some hfp)
  have hsid : sess.id = sid :=
    Nat.eq_of_beq_eq_true (by simpa using List.find?_some hfs)
  have hstep := extension_webhook_step st pid sid now pkg sess up hfp hfs hup
  have hfacts := extension_webhook_result_facts st pkg sess up now pid sid
    hid hsid hfp hfs
  rw [hstep]
  refine ⟨rfl, hfacts.2.1, rfl, rfl, ?_, ?_⟩
  · intro po hpo
    unfold extension_webhook_result at hpo
    dsimp only at hpo
    rcases List.mem_append.mp hpo with hpo1 | hpo2
    · rcases List.mem_append.mp hpo1 with hpo3 | hpo4
      · exact Or.inl hpo3
      · right
        by_cases hhas : st.payouts.any (fun po => po.call_package == some pkg.id) = true
        · rw [if_pos hhas] at hpo4
          simp at hpo4
        · rw [Bool.not_eq_true] at hhas
          rw [if_neg (by rw [hhas]; exact Bool.false_ne_true)] at hpo4
          by_cases hamt : 0 < pkg.listener_amount
          · rw [if_pos hamt] at hpo4
            have := List.mem_singleton.mp hpo4
            rw [this]
          · rw [if_neg hamt] at hpo4
            simp at hpo4
    · right
      have := List.mem_singleton.mp hpo2
      rw [this]
  · unfold extension_webhook_result
    dsimp only
    rw [List.filter_append, List.filter_append]
    by_cases hhas : st.payouts.any (fun po => po.call_package == some pkg.id) = true
    · rw [if_pos hhas]
      simp
    · rw [Bool.not_eq_true] at hhas
      rw [if_neg (by rw [hhas]; exact Bool.false_ne_true)]
      by_cases hamt : 0 < pkg.listener_amount
      · rw [if_pos hamt]
        simp
      · rw [if_neg hamt]
        simp

/-- C5 amended witness: the late extension webhook on the timed-out
`c5Store` session succeeds, lifts its total to 20 minutes while the status
stays `timeout`, and leaves only pre-existing or `processing` payout rows,
none cancelled. -/
theorem C5_amended_witness :
    (handle_checkout_completed_extension c5Store 2 1 1100).2 = .ok ∧
    findSession (handle_checkout_completed_extension c5Store 2 1 1100).1 1 =
      some (add_time c5Session upkg10.duration_minutes) ∧
    (add_time c5Session upkg10.duration_minutes).status = c5Session.status ∧
    (add_time c5Session upkg10.duration_minutes).total_minutes_purchased =
      c5Session.total_minutes_purchased + upkg10.duration_minutes ∧
    (∀ po ∈ (handle_checkout_completed_extension c5Store 2 1 1100).1.payouts,
      po ∈ c5Store.payouts ∨ po.status = .processing) ∧
    (handle_checkout_completed_extension c5Store 2 1 1100).1.payouts.filter
        (fun po => po.status == PayStatus.cancelled) =
      c5Store.payouts.filter (fun po => po.status == PayStatus.cancelled) :=
  C5_amended c5Store 2 1 1100 c5ExtPkg c5Session upkg10
    (by decide) (by decide) (by decide) (Or.inr rfl)
